import Mathlib

/-!
Shallow embedding of the realtime-ai-backend session ledger
(`src/database.py`, class `DatabaseManager`) and post-session processor
(`src/session_processor.py`, class `SessionProcessor`).

The Supabase record store is modelled as explicit in-memory state
(`Store`) holding the `sessions` and `session_events` tables as lists in
insertion order.  Python exceptions are modelled with `Except String`;
operations that catch all exceptions internally return plain values.
Timestamps are exact rationals (seconds since some epoch); Python
`int()` truncation toward zero on a rational is `pyInt`.  Store-level
insert failures (the only store faults the claims exercise) are modelled
by an explicit `Bool` parameter on the fallible insert.
-/

/-- Statistics dict built by `get_session_statistics` in `src/database.py`. -/
structure Stats where
  total_events : Nat
  user_messages : Nat
  assistant_responses : Nat
  function_calls : Nat
  event_types : List (String × Nat)
deriving DecidableEq

/-- Values stored in an event's free-form `data`/`metadata` payloads
(strings, booleans, integers, or a nested statistics dict). -/
inductive PValue where
  | str (s : String)
  | bool (b : Bool)
  | int (n : Int)
  | stats (s : Stats)
deriving DecidableEq

/-- A free-form JSON-like dict payload, insertion ordered. -/
abbrev PDict := List (String × PValue)

/-- Python `d.get(k, dflt)` on a payload dict. -/
def dictGet (d : PDict) (k : String) (dflt : PValue) : PValue :=
  match d.find? (fun p => p.1 == k) with
  | some p => p.2
  | none => dflt

/-- Python `int()` applied to an exact rational: truncation toward zero
(`int((end_time - start_time).total_seconds())` in `end_session`). -/
def pyInt (q : ℚ) : Int :=
  q.num.tdiv (q.den : Int)

/-- A row of the `sessions` table (`src/database.py`, `create_session`). -/
structure Session where
  session_id : String
  user_id : String
  start_time : ℚ
  end_time : Option ℚ
  duration_seconds : Option Int
  summary : Option String
  status : String
deriving DecidableEq

/-- A row of the `session_events` table (`src/database.py`, `log_event`). -/
structure Event where
  session_id : String
  event_type : String
  timestamp : ℚ
  data : PDict
  metadata : PDict
deriving DecidableEq

/-- The record store: both tables, rows in insertion order. -/
structure Store where
  sessions : List Session
  events : List Event
deriving DecidableEq

/-- A reconstructed conversation message (`get_conversation_history`). -/
structure Message where
  role : String
  content : PValue
  timestamp : ℚ
deriving DecidableEq

/-- `DatabaseManager.create_session`: inserts a fresh `sessions` row with
`status = "active"`, `end_time`/`duration_seconds`/`summary` null.  The
store's primary key on `session_id` makes a duplicate insert fail, and
`create_session` re-raises store failures (`raise` in the handler). -/
def create_session (st : Store) (session_id user_id : String) (now : ℚ) :
    Except String (Store × Session) :=
  let session_data : Session :=
    { session_id := session_id
      user_id := user_id
      start_time := now
      end_time := none
      duration_seconds := none
      summary := none
      status := "active" }
  if st.sessions.any (fun s => s.session_id == session_id) then
    Except.error "duplicate key value violates unique constraint"
  else
    Except.ok ({ st with sessions := st.sessions ++ [session_data] }, session_data)

/-- `DatabaseManager.end_session`: selects `start_time` for the session,
raises `ValueError` if no row matches, computes
`duration = int((end_time - start_time).total_seconds())`, then updates
every matching row with `end_time`, `duration_seconds`,
`status = "completed"` and returns the first updated row (or `{}`,
modelled as `none`). -/
def end_session (st : Store) (session_id : String) (now : ℚ) :
    Except String (Store × Option Session) :=
  let rows := st.sessions.filter (fun s => s.session_id == session_id)
  match rows with
  | [] => Except.error ("Session " ++ session_id ++ " not found")
  | r :: _ =>
    let duration : Int := pyInt (now - r.start_time)
    let upd : Session → Session := fun s =>
      if s.session_id == session_id then
        { s with end_time := some now, duration_seconds := some duration,
                 status := "completed" }
      else s
    let st2 : Store := { st with sessions := st.sessions.map upd }
    Except.ok (st2, (st2.sessions.filter (fun s => s.session_id == session_id)).head?)

/-- `DatabaseManager.update_session_summary`: updates every row matching
`session_id` with the summary and `status = "summarized"`; no existence
check is made, and an update matching zero rows succeeds with empty
data, so the function returns `{}` (modelled `none`) in that case. -/
def update_session_summary (st : Store) (session_id summary : String) :
    Store × Option Session :=
  let upd : Session → Session := fun s =>
    if s.session_id == session_id then
      { s with summary := some summary, status := "summarized" }
    else s
  let st2 : Store := { st with sessions := st.sessions.map upd }
  (st2, (st2.sessions.filter (fun s => s.session_id == session_id)).head?)

/-- The attempted `session_events` insert inside `log_event`; the
`insertFails` flag models a store failure raised by the client. -/
def insertEvent (st : Store) (insertFails : Bool) (e : Event) :
    Except String (Store × Event) :=
  if insertFails then Except.error "store insert failed"
  else Except.ok ({ st with events := st.events ++ [e] }, e)

/-- `DatabaseManager.log_event`: builds the event record with the current
timestamp and `metadata or {}`, attempts the insert, and catches any
exception, returning `{}` (modelled `none`) instead of raising. -/
def log_event (st : Store) (insertFails : Bool) (session_id event_type : String)
    (now : ℚ) (data : PDict) (metadata : Option PDict) : Store × Option Event :=
  let event_data : Event :=
    { session_id := session_id
      event_type := event_type
      timestamp := now
      data := data
      metadata := metadata.getD [] }
  match insertEvent st insertFails event_data with
  | Except.ok (st2, e) => (st2, some e)
  | Except.error _ => (st, none)

/-- `DatabaseManager.get_session_events`: selects the session's events,
applies the `in_` filter when a non-empty `event_types` list is given
(an empty list is falsy in Python, so no filter), and orders ascending
by timestamp. -/
def get_session_events (st : Store) (session_id : String)
    (event_types : Option (List String)) : List Event :=
  let q := st.events.filter (fun e => e.session_id == session_id)
  let q := match event_types with
    | some ts => if ts.isEmpty then q else q.filter (fun e => ts.contains e.event_type)
    | none => q
  List.insertionSort (fun a b => a.timestamp ≤ b.timestamp) q

/-- `DatabaseManager.get_session`: first row matching `session_id`, or
`None`. -/
def get_session (st : Store) (session_id : String) : Option Session :=
  (st.sessions.filter (fun s => s.session_id == session_id)).head?

/-- The event loop inside `get_conversation_history`: each
`user_message` event becomes a user-role message, each
`assistant_response` event an assistant-role message, with
`event["data"].get("content", "")` and the event timestamp; anything
else is skipped. -/
def conversationOfEvents : List Event → List Message
  | [] => []
  | e :: rest =>
    if e.event_type == "user_message" then
      { role := "user", content := dictGet e.data "content" (PValue.str ""),
        timestamp := e.timestamp } :: conversationOfEvents rest
    else if e.event_type == "assistant_response" then
      { role := "assistant", content := dictGet e.data "content" (PValue.str ""),
        timestamp := e.timestamp } :: conversationOfEvents rest
    else conversationOfEvents rest

/-- `DatabaseManager.get_conversation_history`: fetches the session's
events filtered to `user_message`/`assistant_response` and maps them to
messages in order. -/
def get_conversation_history (st : Store) (session_id : String) : List Message :=
  conversationOfEvents
    (get_session_events st session_id (some ["user_message", "assistant_response"]))

/-- The `event_types` dict update in `get_session_statistics`:
`stats["event_types"][t] = stats["event_types"].get(t, 0) + 1` on an
insertion-ordered dict. -/
def bumpCount : List (String × Nat) → String → List (String × Nat)
  | [], k => [(k, 1)]
  | (k2, v) :: rest, k =>
    if k2 == k then (k2, v + 1) :: rest else (k2, v) :: bumpCount rest k

/-- `DatabaseManager.get_session_statistics`: one scan over all the
session's events, counting totals, the three named event types, and a
per-type histogram. -/
def get_session_statistics (st : Store) (session_id : String) : Stats :=
  let events := get_session_events st session_id none
  { total_events := events.length
    user_messages := events.countP (fun e => e.event_type == "user_message")
    assistant_responses := events.countP (fun e => e.event_type == "assistant_response")
    function_calls := events.countP (fun e => e.event_type == "function_call")
    event_types := events.foldl (fun m e => bumpCount m e.event_type) [] }

/-- Rendering of a payload value inside an f-string (only feeds the
prompt text handed to the summarization provider). -/
def pvalueText : PValue → String
  | PValue.str s => s
  | PValue.bool b => toString b
  | PValue.int n => toString n
  | PValue.stats _ => "stats"

/-- `SessionProcessor._format_duration`: humanized duration string from
an integer number of seconds (Python `//` and `%` are floor division
and floor modulo, `Int.fdiv`/`Int.fmod`). -/
def format_duration (seconds : Int) : String :=
  if seconds < 60 then
    toString seconds ++ " seconds"
  else if seconds < 3600 then
    let minutes := Int.fdiv seconds 60
    let secs := Int.fmod seconds 60
    toString minutes ++ " minutes, " ++ toString secs ++ " seconds"
  else
    let hours := Int.fdiv seconds 3600
    let minutes := Int.fdiv (Int.fmod seconds 3600) 60
    toString hours ++ " hours, " ++ toString minutes ++ " minutes"

/-- `SessionProcessor._format_conversation`: renders each message as
`[timestamp] ROLE: content`, newline-joined. -/
def format_conversation (conversation : List Message) : String :=
  String.intercalate "\n"
    (conversation.map (fun msg =>
      "[" ++ toString msg.timestamp ++ "] " ++ msg.role.toUpper ++ ": "
        ++ pvalueText msg.content))

/-- The fixed instruction template built inside
`SessionProcessor.generate_summary`. -/
def summaryPrompt (conversation_text : String) (session : Session)
    (duration_str : String) : String :=
  "Analyze the following conversation and provide a concise summary.\n\n"
    ++ "Session Information:\n- Session ID: " ++ session.session_id
    ++ "\n- Duration: " ++ duration_str
    ++ "\n- User ID: " ++ session.user_id
    ++ "\n\nConversation:\n" ++ conversation_text
    ++ "\n\nPlease provide:\n"
    ++ "1. A brief overview (2-3 sentences) of what was discussed\n"
    ++ "2. Key topics or themes\n"
    ++ "3. Any actions taken or tools used\n"
    ++ "4. Overall sentiment and engagement level\n\n"
    ++ "Keep the summary concise and informative."

/-- `SessionProcessor.generate_summary`: builds the prompt, calls the
summarization provider (modelled as an oracle from the prompt to either
the generated text or a raised error), and converts any failure into the
literal string `"Error generating summary: <error>"` instead of
propagating it. -/
def generate_summary (conversation : List Message) (session : Session)
    (provider : String → Except String String) : String :=
  let conversation_text := format_conversation conversation
  let duration := session.duration_seconds.getD 0
  let duration_str := format_duration duration
  let prompt := summaryPrompt conversation_text session duration_str
  match provider prompt with
  | Except.ok summary => summary
  | Except.error e => "Error generating summary: " ++ e

/-- Outcome of one `process_session` run: the store afterwards, whether
the summarization provider was invoked, and the summary passed to
`update_session_summary` (if the run got that far). -/
structure ProcResult where
  store : Store
  providerCalled : Bool
  summaryPersisted : Option String
deriving DecidableEq

/-- `SessionProcessor.process_session`: fetches the session (aborting
silently if absent), reconstructs the conversation, takes the fixed
placeholder summary when it is empty and otherwise calls
`generate_summary`, persists the summary via `update_session_summary`,
computes statistics, and logs one `post_processing_complete` event with
`summary_generated` hard-coded to `True`, the summary length and the
statistics.  `logInsertFails` models a store failure of that final
event insert (swallowed by `log_event`); `now` is the wall-clock time
of the event. -/
def process_session (st : Store) (session_id : String)
    (provider : String → Except String String) (logInsertFails : Bool)
    (now : ℚ) : ProcResult :=
  match get_session st session_id with
  | none => { store := st, providerCalled := false, summaryPersisted := none }
  | some session =>
    let conversation := get_conversation_history st session_id
    let summary :=
      if conversation.isEmpty then
        "No conversation data available for this session."
      else
        generate_summary conversation session provider
    let st2 := (update_session_summary st session_id summary).1
    let stats := get_session_statistics st2 session_id
    let st3 := (log_event st2 logInsertFails session_id
      "post_processing_complete" now
      [("summary_generated", PValue.bool true),
       ("summary_length", PValue.int (summary.length : Int)),
       ("statistics", PValue.stats stats)]
      none).1
    { store := st3, providerCalled := !conversation.isEmpty,
      summaryPersisted := some summary }

/-- One Ledger operation applied to a fixed session id (the operations
named by the status-monotonicity invariant). -/
inductive LedgerOp where
  | create (user_id : String) (now : ℚ)
  | endS (now : ℚ)
  | updSummary (summary : String)
deriving DecidableEq

/-- Applies one operation to the store; a raised exception propagates to
the caller having mutated nothing, so the store is unchanged. -/
def applyOp (st : Store) (session_id : String) : LedgerOp → Store
  | LedgerOp.create uid now =>
    match create_session st session_id uid now with
    | Except.ok (st2, _) => st2
    | Except.error _ => st
  | LedgerOp.endS now =>
    match end_session st session_id now with
    | Except.ok (st2, _) => st2
    | Except.error _ => st
  | LedgerOp.updSummary s => (update_session_summary st session_id s).1

/-- The session's current status, when the session exists. -/
def sessionStatus (st : Store) (session_id : String) : Option String :=
  (get_session st session_id).map Session.status

/-- The status snapshot taken after each operation of a sequence. -/
def statusTrace (st : Store) (session_id : String) :
    List LedgerOp → List (Option String)
  | [] => []
  | op :: rest =>
    let st2 := applyOp st session_id op
    sessionStatus st2 session_id :: statusTrace st2 session_id rest

/-- The statuses actually observed over time (snapshots where the
session exists). -/
def observedStatuses (st : Store) (session_id : String) (ops : List LedgerOp) :
    List String :=
  (statusTrace st session_id ops).filterMap id

/-- Position of a status along the active → completed → summarized
progression. -/
def statusRank (s : String) : Nat :=
  if s == "active" then 0
  else if s == "completed" then 1
  else if s == "summarized" then 2
  else 3

/-- Claim-side predicate: the observed status sequence never decreases
along the active → completed → summarized progression. -/
def statusesNeverDecrease (l : List String) : Prop :=
  List.Pairwise (fun a b => statusRank a ≤ statusRank b) l

/-- Spec-side per-event conversation mapping: a `user_message` or
`assistant_response` event becomes exactly one role/content/timestamp
message, every other event type is excluded. -/
def convMessageOfEvent (e : Event) : Option Message :=
  if e.event_type == "user_message" then
    some { role := "user", content := dictGet e.data "content" (PValue.str ""),
           timestamp := e.timestamp }
  else if e.event_type == "assistant_response" then
    some { role := "assistant", content := dictGet e.data "content" (PValue.str ""),
           timestamp := e.timestamp }
  else none

/-- Spec-side duration formatter, written from the spec's words:
`<60s` gives `"S seconds"`, `<3600s` gives `"M minutes, S seconds"`,
otherwise `"H hours, M minutes"`, integer division with no rounding. -/
def formatDurationSpec (s : Nat) : String :=
  if s < 60 then toString s ++ " seconds"
  else if s < 3600 then
    toString (s / 60) ++ " minutes, " ++ toString (s % 60) ++ " seconds"
  else
    toString (s / 3600) ++ " hours, " ++ toString (s % 3600 / 60) ++ " minutes"

/-! ### Helper lemmas -/

/-- A row update that preserves `session_id` commutes with the
`session_id` filter. -/
lemma filter_map_keep_id (l : List Session) (sid : String) (f : Session → Session)
    (hf : ∀ s, (f s).session_id = s.session_id) :
    (l.map f).filter (fun s => s.session_id == sid)
      = (l.filter (fun s => s.session_id == sid)).map f := by
  rw [List.filter_map]
  congr 1
  apply List.filter_congr
  intro s _
  simp [Function.comp, hf]

/-- Python truncation agrees with the floor on non-negative rationals. -/
lemma pyInt_eq_floor (q : ℚ) (h : 0 ≤ q) : pyInt q = ⌊q⌋ := by
  unfold pyInt
  rw [Int.tdiv_eq_ediv (Rat.num_nonneg.mpr h) (by exact_mod_cast Nat.zero_le _)]
  exact Rat.floor_def.symm

/-- Every row of the store left by `update_session_summary` that matches
the session id carries the written summary and status. -/
lemma mem_update_sessions (st : Store) (sid summary : String) (r : Session)
    (hr : r ∈ (update_session_summary st sid summary).1.sessions)
    (hsid : r.session_id = sid) :
    r.summary = some summary ∧ r.status = "summarized" := by
  simp only [update_session_summary] at hr
  obtain ⟨s, hs, rfl⟩ := List.mem_map.mp hr
  by_cases h : s.session_id == sid
  · simp [h]
  · simp only [if_neg h] at hsid ⊢
    exact absurd hsid (by simpa using h)

/-! ### Claims -/

/-- C1: `logEvent` never raises: the attempted store insert fails, the
exception is caught, and the empty sentinel record is returned with the
store untouched, so the caller's control flow continues normally. -/
theorem logEvent_never_raises (st : Store) (session_id event_type : String)
    (now : ℚ) (data : PDict) (metadata : Option PDict) :
    (insertEvent st true
        { session_id := session_id, event_type := event_type, timestamp := now,
          data := data, metadata := metadata.getD [] }).isOk = false
    ∧ log_event st true session_id event_type now data metadata = (st, none) :=
  ⟨rfl, rfl⟩

/-- C10: `updateSummary` performs no existence check: called for an
absent session it does not raise, returns the empty record and changes
nothing, while `endSession` on the same absent session raises a
not-found error. -/
theorem updateSummary_absent_session (st : Store) (session_id summary : String)
    (now : ℚ)
    (habs : st.sessions.filter (fun s => s.session_id == session_id) = []) :
    update_session_summary st session_id summary = (st, none)
    ∧ end_session st session_id now
        = Except.error ("Session " ++ session_id ++ " not found") := by
  have hall : ∀ s ∈ st.sessions, ¬((s.session_id == session_id) = true) :=
    List.filter_eq_nil_iff.mp habs
  have hmap : st.sessions.map (fun s =>
      if s.session_id == session_id then
        { s with summary := some summary, status := "summarized" }
      else s) = st.sessions := by
    conv_rhs => rw [← List.map_id st.sessions]
    apply List.map_congr_left
    intro s hs
    rw [if_neg (hall s hs)]
    rfl
  constructor
  · simp only [update_session_summary]
    rw [hmap]
    simp [habs]
  · simp only [end_session]
    rw [habs]

/-- C8: the humanized duration formatter returns "S seconds" below one
minute, "M minutes, S seconds" below one hour and "H hours, M minutes"
otherwise, by integer division without rounding; in particular
45 gives "45 seconds", 125 gives "2 minutes, 5 seconds" and 3725 gives
"1 hours, 2 minutes". -/
theorem formatDuration_correct :
    (∀ s : Nat, format_duration (s : Int) = formatDurationSpec s)
    ∧ format_duration 45 = "45 seconds"
    ∧ format_duration 125 = "2 minutes, 5 seconds"
    ∧ format_duration 3725 = "1 hours, 2 minutes" := by
  have hfd : ∀ m n : Nat, Int.fdiv (m : Int) (n : Int) = ((m / n : Nat) : Int) := by
    intro m n
    rw [Int.fdiv_eq_ediv _ (by exact_mod_cast Nat.zero_le n)]
    exact (Int.ofNat_ediv m n).symm
  have hfm : ∀ m n : Nat, Int.fmod (m : Int) (n : Int) = ((m % n : Nat) : Int) := by
    intro m n
    rw [Int.fmod_eq_emod _ (by exact_mod_cast Nat.zero_le n)]
    exact_mod_cast rfl
  refine ⟨fun s => ?_, by decide, by decide, by decide⟩
  unfold format_duration formatDurationSpec
  by_cases h1 : s < 60
  · rw [if_pos (show (s : Int) < 60 by exact_mod_cast h1), if_pos h1]
    rfl
  · rw [if_neg (show ¬((s : Int) < 60) by exact_mod_cast h1), if_neg h1]
    by_cases h2 : s < 3600
    · rw [if_pos (show (s : Int) < 3600 by exact_mod_cast h2), if_pos h2]
      rw [show ((60 : Int)) = ((60 : Nat) : Int) by rfl] at *
      rw [hfd s 60, hfm s 60]
      rfl
    · rw [if_neg (show ¬((s : Int) < 3600) by exact_mod_cast h2), if_neg h2]
      rw [show ((3600 : Int)) = ((3600 : Nat) : Int) by rfl,
          show ((60 : Int)) = ((60 : Nat) : Int) by rfl]
      rw [hfd s 3600, hfm s 3600, hfd (s % 3600) 60]
      rfl

/-- C3: `endSession` invoked at time `T1` on a session whose stored
start time is `T0 ≤ T1` writes `duration_seconds = ⌊T1 − T0⌋` in whole
seconds (floor, also when `T1 − T0` is not integral), together with
`end_time = T1` and `status = "completed"`, both in the returned record
and in the stored row. -/
theorem endSession_duration_floor (st : Store) (session_id : String)
    (s0 : Session) (T1 : ℚ)
    (hrow : st.sessions.filter (fun s => s.session_id == session_id) = [s0])
    (hle : s0.start_time ≤ T1) :
    ∃ st2 : Store,
      end_session st session_id T1 = Except.ok (st2,
        some { s0 with end_time := some T1,
                       duration_seconds := some ⌊T1 - s0.start_time⌋,
                       status := "completed" })
      ∧ st2.sessions.filter (fun s => s.session_id == session_id)
          = [{ s0 with end_time := some T1,
                       duration_seconds := some ⌊T1 - s0.start_time⌋,
                       status := "completed" }] := by
  have hmem : s0 ∈ st.sessions.filter (fun s => s.session_id == session_id) := by
    rw [hrow]
    exact List.mem_cons_self _ _
  have hp : (s0.session_id == session_id) = true := (List.mem_filter.mp hmem).2
  have hdur : pyInt (T1 - s0.start_time) = ⌊T1 - s0.start_time⌋ :=
    pyInt_eq_floor _ (sub_nonneg.mpr hle)
  simp only [end_session]
  rw [hrow]
  dsimp only
  have hkeep : ∀ s : Session,
      ((if (s.session_id == session_id) = true then
          { s with end_time := some T1,
                   duration_seconds := some (pyInt (T1 - s0.start_time)),
                   status := "completed" }
        else s) : Session).session_id = s.session_id := by
    intro s
    by_cases h : (s.session_id == session_id) = true <;> simp [h]
  refine ⟨{ st with sessions := st.sessions.map (fun s =>
      if (s.session_id == session_id) = true then
        { s with end_time := some T1,
                 duration_seconds := some (pyInt (T1 - s0.start_time)),
                 status := "completed" }
      else s) }, ?_, ?_⟩
  all_goals rw [filter_map_keep_id _ _ _ hkeep, hrow]
  all_goals have hps : s0.session_id = session_id := by simpa using hp
  all_goals simp [hps, hdur]

/-- C3 witness: ending at t = 5/2 a session started at t = 0 stores a
duration of ⌊5/2⌋ = 2 whole seconds together with end time and
completed status. -/
theorem endSession_duration_floor_witness :
    ∃ st2 : Store,
      end_session { sessions := [{ session_id := "s1", user_id := "u1", start_time := 0,
                                   end_time := none, duration_seconds := none,
                                   summary := none, status := "active" }], events := [] }
        "s1" (5/2)
        = Except.ok (st2,
            some { session_id := "s1", user_id := "u1", start_time := 0,
                   end_time := some (5/2),
                   duration_seconds := some ⌊(5/2 : ℚ) - 0⌋,
                   summary := none, status := "completed" })
      ∧ st2.sessions.filter (fun s => s.session_id == "s1")
          = [{ session_id := "s1", user_id := "u1", start_time := 0,
               end_time := some (5/2), duration_seconds := some ⌊(5/2 : ℚ) - 0⌋,
               summary := none, status := "completed" }] :=
  endSession_duration_floor _ "s1"
    { session_id := "s1", user_id := "u1", start_time := 0, end_time := none,
      duration_seconds := none, summary := none, status := "active" }
    (5/2) (by decide) (by norm_num)

/-- C10 witness: on the empty store, `update_session_summary` returns the
sentinel without changing anything and `end_session` errors. -/
theorem updateSummary_absent_session_witness :
    update_session_summary { sessions := [], events := [] } "ghost" "sum"
      = ({ sessions := [], events := [] }, none)
    ∧ end_session { sessions := [], events := [] } "ghost" 7
        = Except.error ("Session " ++ "ghost" ++ " not found") :=
  updateSummary_absent_session { sessions := [], events := [] } "ghost" "sum" 7
    (by decide)

/-- The conversation-building loop maps each event through
`convMessageOfEvent`. -/
lemma conversationOfEvents_eq_filterMap (l : List Event) :
    conversationOfEvents l = l.filterMap convMessageOfEvent := by
  induction l with
  | nil => rfl
  | cons e rest ih =>
    by_cases h1 : (e.event_type == "user_message") = true
    · simp only [conversationOfEvents, convMessageOfEvent, h1, if_true, if_pos,
        List.filterMap_cons, ih]
    · by_cases h2 : (e.event_type == "assistant_response") = true
      · simp only [conversationOfEvents, convMessageOfEvent, h1, h2,
          Bool.false_eq_true, if_false, if_true, if_pos, if_neg,
          List.filterMap_cons, ih]
      · simp only [conversationOfEvents, convMessageOfEvent, h1, h2,
          Bool.false_eq_true, if_false, List.filterMap_cons, ih]

/-- Excluded event types map to no message, so the conversation type
filter is absorbed by the per-event mapping. -/
lemma filterMap_conv_filter (l : List Event) :
    (l.filter (fun e =>
        (["user_message", "assistant_response"] : List String).contains e.event_type)).filterMap
        convMessageOfEvent
      = l.filterMap convMessageOfEvent := by
  induction l with
  | nil => rfl
  | cons e rest ih =>
    by_cases h1 : (e.event_type == "user_message") = true
    · have hc : ((["user_message", "assistant_response"] : List String).contains
          e.event_type) = true := by
        simp only [List.contains_cons, Bool.or_eq_true, beq_iff_eq]
        exact Or.inl (by simpa using h1)
      rw [List.filter_cons, if_pos hc, List.filterMap_cons, List.filterMap_cons, ih]
    · by_cases h2 : (e.event_type == "assistant_response") = true
      · have hc : ((["user_message", "assistant_response"] : List String).contains
            e.event_type) = true := by
          simp only [List.contains_cons, Bool.or_eq_true, beq_iff_eq]
          exact Or.inr (Or.inl (by simpa using h2))
        rw [List.filter_cons, if_pos hc, List.filterMap_cons, List.filterMap_cons, ih]
      · have hb1 : (e.event_type == "user_message") = false := Bool.eq_false_iff.mpr h1
        have hb2 : (e.event_type == "assistant_response") = false := Bool.eq_false_iff.mpr h2
        have hc : ((["user_message", "assistant_response"] : List String).contains
            e.event_type) = false := by
          simp only [List.contains_cons, List.contains_nil, hb1, hb2, Bool.or_false,
            Bool.or_self]
        have hnone : convMessageOfEvent e = none := by
          rw [convMessageOfEvent, if_neg (by simp [h1]), if_neg (by simp [h2])]
        simp only [List.filter_cons, hc, Bool.false_eq_true, if_false]
        rw [List.filterMap_cons, hnone]
        exact ih

/-- C4: with the session's event log ordered by timestamp (as events
logged with the current wall clock are), `getConversation` returns
exactly one message per `user_message`/`assistant_response` event —
role user/assistant respectively, with the event's content and
timestamp — in the events' relative order, and excludes every event of
any other type. -/
theorem getConversation_round_trip (st : Store) (session_id : String)
    (hsorted : (st.events.filter (fun e => e.session_id == session_id)).Pairwise
        (fun a b => a.timestamp ≤ b.timestamp)) :
    get_conversation_history st session_id
      = (st.events.filter (fun e => e.session_id == session_id)).filterMap
          convMessageOfEvent := by
  unfold get_conversation_history get_session_events
  dsimp only
  have hsort2 : List.Sorted (fun a b : Event => a.timestamp ≤ b.timestamp)
      ((st.events.filter (fun e => e.session_id == session_id)).filter
        (fun e => (["user_message", "assistant_response"] : List String).contains
          e.event_type)) :=
    List.Pairwise.sublist (List.filter_sublist _) hsorted
  simp only [show (["user_message", "assistant_response"] : List String).isEmpty = false
      from rfl, Bool.false_eq_true, if_false]
  rw [List.Sorted.insertionSort_eq hsort2, conversationOfEvents_eq_filterMap,
      filterMap_conv_filter]

/-- C4 witness: a concrete log of user/assistant/function-call events
round-trips to the user and assistant messages in order, excluding the
function call. -/
theorem getConversation_round_trip_witness :
    get_conversation_history
      { sessions := [],
        events :=
          [{ session_id := "s1", event_type := "user_message", timestamp := 1,
             data := [("content", PValue.str "hi")], metadata := [] },
           { session_id := "s1", event_type := "function_call", timestamp := 2,
             data := [("function_name", PValue.str "get_weather")], metadata := [] },
           { session_id := "s1", event_type := "assistant_response", timestamp := 3,
             data := [("content", PValue.str "hello")], metadata := [] }] } "s1"
      = (({ sessions := [],
            events :=
              [{ session_id := "s1", event_type := "user_message", timestamp := 1,
                 data := [("content", PValue.str "hi")], metadata := [] },
               { session_id := "s1", event_type := "function_call", timestamp := 2,
                 data := [("function_name", PValue.str "get_weather")], metadata := [] },
               { session_id := "s1", event_type := "assistant_response", timestamp := 3,
                 data := [("content", PValue.str "hello")], metadata := [] }] } : Store).events.filter
          (fun e => e.session_id == "s1")).filterMap convMessageOfEvent :=
  getConversation_round_trip _ "s1" (by decide)

/-- Every event falls in exactly one of the four statistics classes. -/
lemma countP_event_partition (l : List Event) :
    l.countP (fun e => e.event_type == "user_message")
      + l.countP (fun e => e.event_type == "assistant_response")
      + l.countP (fun e => e.event_type == "function_call")
      + l.countP (fun e => !(e.event_type == "user_message"
          || e.event_type == "assistant_response"
          || e.event_type == "function_call")) = l.length := by
  induction l with
  | nil => rfl
  | cons e rest ih =>
    simp only [List.countP_cons, List.length_cons]
    by_cases h1 : (e.event_type == "user_message") = true <;>
      by_cases h2 : (e.event_type == "assistant_response") = true <;>
        by_cases h3 : (e.event_type == "function_call") = true <;>
          simp_all <;> omega

/-- One histogram bump adds one to the total count. -/
lemma sum_map_snd_bumpCount (m : List (String × Nat)) (k : String) :
    ((bumpCount m k).map Prod.snd).sum = (m.map Prod.snd).sum + 1 := by
  induction m with
  | nil => rfl
  | cons p rest ih =>
    obtain ⟨k2, v⟩ := p
    by_cases h : (k2 == k) = true
    · simp only [bumpCount, h, if_true, List.map_cons, List.sum_cons]
      omega
    · simp only [bumpCount, h, Bool.false_eq_true, if_false, List.map_cons,
        List.sum_cons, ih]
      omega

/-- Folding the histogram over a list of events counts every event. -/
lemma sum_map_snd_foldl_bump (es : List Event) :
    ∀ m : List (String × Nat),
      ((es.foldl (fun m e => bumpCount m e.event_type) m).map Prod.snd).sum
        = (m.map Prod.snd).sum + es.length := by
  induction es with
  | nil => intro m; simp
  | cons e rest ih =>
    intro m
    simp only [List.foldl_cons, List.length_cons]
    rw [ih, sum_map_snd_bumpCount]
    omega

/-- C7: for a session whose event log holds `u` user messages, `a`
assistant responses, `f` function calls and `t` events of other types,
`getStatistics` reports those per-kind counts, a total of
`u + a + f + t`, and a per-type histogram whose counts sum to the
total. -/
theorem statistics_additivity (st : Store) (session_id : String) (u a f t : Nat)
    (hu : (st.events.filter (fun e => e.session_id == session_id)).countP
        (fun e => e.event_type == "user_message") = u)
    (ha : (st.events.filter (fun e => e.session_id == session_id)).countP
        (fun e => e.event_type == "assistant_response") = a)
    (hf : (st.events.filter (fun e => e.session_id == session_id)).countP
        (fun e => e.event_type == "function_call") = f)
    (ht : (st.events.filter (fun e => e.session_id == session_id)).countP
        (fun e => !(e.event_type == "user_message"
            || e.event_type == "assistant_response"
            || e.event_type == "function_call")) = t) :
    (get_session_statistics st session_id).total_events = u + a + f + t
    ∧ (get_session_statistics st session_id).user_messages = u
    ∧ (get_session_statistics st session_id).assistant_responses = a
    ∧ (get_session_statistics st session_id).function_calls = f
    ∧ ((get_session_statistics st session_id).event_types.map Prod.snd).sum
        = (get_session_statistics st session_id).total_events := by
  have hperm : (get_session_events st session_id none).Perm
      (st.events.filter (fun e => e.session_id == session_id)) := by
    unfold get_session_events
    exact List.perm_insertionSort _ _
  unfold get_session_statistics
  dsimp only
  refine ⟨?_, ?_, ?_, ?_, ?_⟩
  · rw [hperm.length_eq, ← hu, ← ha, ← hf, ← ht]
    exact (countP_event_partition _).symm
  · rw [hperm.countP_eq, hu]
  · rw [hperm.countP_eq, ha]
  · rw [hperm.countP_eq, hf]
  · rw [sum_map_snd_foldl_bump]
    simp

/-- C7 witness: a session with two user messages, one assistant
response, one function call and one other event reports matching counts
summing to five. -/
theorem statistics_additivity_witness :
    (get_session_statistics
        { sessions := [],
          events :=
            [{ session_id := "s1", event_type := "session_start", timestamp := 0,
               data := [], metadata := [] },
             { session_id := "s1", event_type := "user_message", timestamp := 1,
               data := [("content", PValue.str "hi")], metadata := [] },
             { session_id := "s1", event_type := "assistant_response", timestamp := 2,
               data := [("content", PValue.str "hello")], metadata := [] },
             { session_id := "s1", event_type := "user_message", timestamp := 3,
               data := [("content", PValue.str "more")], metadata := [] },
             { session_id := "s1", event_type := "function_call", timestamp := 4,
               data := [("function_name", PValue.str "get_weather")], metadata := [] }] }
        "s1").total_events = 2 + 1 + 1 + 1
    ∧ (get_session_statistics
        { sessions := [],
          events :=
            [{ session_id := "s1", event_type := "session_start", timestamp := 0,
               data := [], metadata := [] },
             { session_id := "s1", event_type := "user_message", timestamp := 1,
               data := [("content", PValue.str "hi")], metadata := [] },
             { session_id := "s1", event_type := "assistant_response", timestamp := 2,
               data := [("content", PValue.str "hello")], metadata := [] },
             { session_id := "s1", event_type := "user_message", timestamp := 3,
               data := [("content", PValue.str "more")], metadata := [] },
             { session_id := "s1", event_type := "function_call", timestamp := 4,
               data := [("function_name", PValue.str "get_weather")], metadata := [] }] }
        "s1").user_messages = 2
    ∧ (get_session_statistics
        { sessions := [],
          events :=
            [{ session_id := "s1", event_type := "session_start", timestamp := 0,
               data := [], metadata := [] },
             { session_id := "s1", event_type := "user_message", timestamp := 1,
               data := [("content", PValue.str "hi")], metadata := [] },
             { session_id := "s1", event_type := "assistant_response", timestamp := 2,
               data := [("content", PValue.str "hello")], metadata := [] },
             { session_id := "s1", event_type := "user_message", timestamp := 3,
               data := [("content", PValue.str "more")], metadata := [] },
             { session_id := "s1", event_type := "function_call", timestamp := 4,
               data := [("function_name", PValue.str "get_weather")], metadata := [] }] }
        "s1").assistant_responses = 1
    ∧ (get_session_statistics
        { sessions := [],
          events :=
            [{ session_id := "s1", event_type := "session_start", timestamp := 0,
               data := [], metadata := [] },
             { session_id := "s1", event_type := "user_message", timestamp := 1,
               data := [("content", PValue.str "hi")], metadata := [] },
             { session_id := "s1", event_type := "assistant_response", timestamp := 2,
               data := [("content", PValue.str "hello")], metadata := [] },
             { session_id := "s1", event_type := "user_message", timestamp := 3,
               data := [("content", PValue.str "more")], metadata := [] },
             { session_id := "s1", event_type := "function_call", timestamp := 4,
               data := [("function_name", PValue.str "get_weather")], metadata := [] }] }
        "s1").function_calls = 1
    ∧ ((get_session_statistics
        { sessions := [],
          events :=
            [{ session_id := "s1", event_type := "session_start", timestamp := 0,
               data := [], metadata := [] },
             { session_id := "s1", event_type := "user_message", timestamp := 1,
               data := [("content", PValue.str "hi")], metadata := [] },
             { session_id := "s1", event_type := "assistant_response", timestamp := 2,
               data := [("content", PValue.str "hello")], metadata := [] },
             { session_id := "s1", event_type := "user_message", timestamp := 3,
               data := [("content", PValue.str "more")], metadata := [] },
             { session_id := "s1", event_type := "function_call", timestamp := 4,
               data := [("function_name", PValue.str "get_weather")], metadata := [] }] }
        "s1").event_types.map Prod.snd).sum
        = (get_session_statistics
        { sessions := [],
          events :=
            [{ session_id := "s1", event_type := "session_start", timestamp := 0,
               data := [], metadata := [] },
             { session_id := "s1", event_type := "user_message", timestamp := 1,
               data := [("content", PValue.str "hi")], metadata := [] },
             { session_id := "s1", event_type := "assistant_response", timestamp := 2,
               data := [("content", PValue.str "hello")], metadata := [] },
             { session_id := "s1", event_type := "user_message", timestamp := 3,
               data := [("content", PValue.str "more")], metadata := [] },
             { session_id := "s1", event_type := "function_call", timestamp := 4,
               data := [("function_name", PValue.str "get_weather")], metadata := [] }] }
        "s1").total_events :=
  statistics_additivity _ "s1" 2 1 1 1 (by decide) (by decide) (by decide) (by decide)

/-- C2 counterexample: `updateSummary` and `endSession` write their
status unconditionally, so the operation sequence create, end,
updateSummary, end makes the observed status sequence
active, completed, summarized, completed — the last step decreases. -/
theorem statusMonotonicity_counterexample :
    observedStatuses { sessions := [], events := [] } "s1"
      [LedgerOp.create "u1" 0, LedgerOp.endS 1, LedgerOp.updSummary "sum",
       LedgerOp.endS 2]
      = ["active", "completed", "summarized", "completed"]
    ∧ ¬ statusesNeverDecrease
        (observedStatuses { sessions := [], events := [] } "s1"
          [LedgerOp.create "u1" 0, LedgerOp.endS 1, LedgerOp.updSummary "sum",
           LedgerOp.endS 2]) := by
  constructor
  · decide
  · unfold statusesNeverDecrease
    decide

/-- C2 (amended): along the lifecycle order — `createSession` of a fresh
id, then `endSession`, then `updateSummary` — the observed statuses
progress active, completed, summarized, never decreasing;
`end_time`/`duration_seconds` are set exactly at the active→completed
transition and `summary` exactly at completed→summarized.  (The code
does not guard other orders: see the counterexample.) -/
theorem statusMonotonicity_lifecycle (st : Store) (session_id user_id : String)
    (T0 T1 : ℚ) (sum : String)
    (hfresh : st.sessions.filter (fun s => s.session_id == session_id) = [])
    (hle : T0 ≤ T1) :
    observedStatuses st session_id
        [LedgerOp.create user_id T0, LedgerOp.endS T1, LedgerOp.updSummary sum]
      = ["active", "completed", "summarized"]
    ∧ statusesNeverDecrease
        (observedStatuses st session_id
          [LedgerOp.create user_id T0, LedgerOp.endS T1, LedgerOp.updSummary sum])
    ∧ get_session (applyOp st session_id (LedgerOp.create user_id T0)) session_id
        = some { session_id := session_id, user_id := user_id, start_time := T0,
                 end_time := none, duration_seconds := none, summary := none,
                 status := "active" }
    ∧ get_session (applyOp (applyOp st session_id (LedgerOp.create user_id T0))
          session_id (LedgerOp.endS T1)) session_id
        = some { session_id := session_id, user_id := user_id, start_time := T0,
                 end_time := some T1, duration_seconds := some ⌊T1 - T0⌋,
                 summary := none, status := "completed" }
    ∧ get_session (applyOp (applyOp (applyOp st session_id
          (LedgerOp.create user_id T0)) session_id (LedgerOp.endS T1))
          session_id (LedgerOp.updSummary sum)) session_id
        = some { session_id := session_id, user_id := user_id, start_time := T0,
                 end_time := some T1, duration_seconds := some ⌊T1 - T0⌋,
                 summary := some sum, status := "summarized" } := by
  have hall := List.filter_eq_nil_iff.mp hfresh
  have hany : st.sessions.any (fun s => s.session_id == session_id) = false := by
    rw [List.any_eq_false]
    exact hall
  have hst1 : applyOp st session_id (LedgerOp.create user_id T0)
      = { st with sessions := st.sessions ++
            [{ session_id := session_id, user_id := user_id, start_time := T0,
               end_time := none, duration_seconds := none, summary := none,
               status := "active" }] } := by
    simp only [applyOp, create_session]
    rw [hany]
    rfl
  have hfil1 : (applyOp st session_id (LedgerOp.create user_id T0)).sessions.filter
      (fun s => s.session_id == session_id)
      = [{ session_id := session_id, user_id := user_id, start_time := T0,
           end_time := none, duration_seconds := none, summary := none,
           status := "active" }] := by
    rw [hst1]
    show (st.sessions ++ _).filter _ = _
    rw [List.filter_append, hfresh]
    simp
  have hg1 : get_session (applyOp st session_id (LedgerOp.create user_id T0)) session_id
      = some { session_id := session_id, user_id := user_id, start_time := T0,
               end_time := none, duration_seconds := none, summary := none,
               status := "active" } := by
    unfold get_session
    rw [hfil1]
    rfl
  obtain ⟨st2, hend, hfil2⟩ := endSession_duration_floor
    (applyOp st session_id (LedgerOp.create user_id T0)) session_id
    { session_id := session_id, user_id := user_id, start_time := T0,
      end_time := none, duration_seconds := none, summary := none,
      status := "active" } T1 hfil1 hle
  have hst2 : applyOp (applyOp st session_id (LedgerOp.create user_id T0))
      session_id (LedgerOp.endS T1) = st2 := by
    set x := applyOp st session_id (LedgerOp.create user_id T0) with hx
    simp only [applyOp]
    rw [hend]
  have hg2 : get_session (applyOp (applyOp st session_id (LedgerOp.create user_id T0))
        session_id (LedgerOp.endS T1)) session_id
      = some { session_id := session_id, user_id := user_id, start_time := T0,
               end_time := some T1, duration_seconds := some ⌊T1 - T0⌋,
               summary := none, status := "completed" } := by
    rw [hst2]
    unfold get_session
    rw [hfil2]
    rfl
  have hkeep : ∀ s : Session,
      ((if (s.session_id == session_id) = true then
          { s with summary := some sum, status := "summarized" }
        else s) : Session).session_id = s.session_id := by
    intro s
    by_cases h : (s.session_id == session_id) = true <;> simp [h]
  have hfil3 : ((update_session_summary st2 session_id sum).1).sessions.filter
      (fun s => s.session_id == session_id)
      = [{ session_id := session_id, user_id := user_id, start_time := T0,
           end_time := some T1, duration_seconds := some ⌊T1 - T0⌋,
           summary := some sum, status := "summarized" }] := by
    show ((st2.sessions.map _).filter _) = _
    rw [filter_map_keep_id _ _ _ hkeep, hfil2]
    simp
  have hg3 : get_session (applyOp (applyOp (applyOp st session_id
        (LedgerOp.create user_id T0)) session_id (LedgerOp.endS T1))
        session_id (LedgerOp.updSummary sum)) session_id
      = some { session_id := session_id, user_id := user_id, start_time := T0,
               end_time := some T1, duration_seconds := some ⌊T1 - T0⌋,
               summary := some sum, status := "summarized" } := by
    rw [hst2]
    show get_session (update_session_summary st2 session_id sum).1 session_id = _
    unfold get_session
    rw [hfil3]
    rfl
  have htrace : observedStatuses st session_id
      [LedgerOp.create user_id T0, LedgerOp.endS T1, LedgerOp.updSummary sum]
      = ["active", "completed", "summarized"] := by
    simp only [observedStatuses, statusTrace, sessionStatus]
    rw [hg1, hg2, hg3]
    rfl
  exact ⟨htrace, by rw [htrace]; unfold statusesNeverDecrease; decide, hg1, hg2, hg3⟩

/-- C2 witness: on the empty store the lifecycle sequence of operations
yields the observed progression active, completed, summarized together
with the timing and summary fields set at their transitions. -/
theorem statusMonotonicity_lifecycle_witness :
    observedStatuses { sessions := [], events := [] } "s1"
        [LedgerOp.create "u1" 0, LedgerOp.endS 1, LedgerOp.updSummary "sum"]
      = ["active", "completed", "summarized"]
    ∧ statusesNeverDecrease
        (observedStatuses { sessions := [], events := [] } "s1"
          [LedgerOp.create "u1" 0, LedgerOp.endS 1, LedgerOp.updSummary "sum"])
    ∧ get_session (applyOp { sessions := [], events := [] } "s1"
          (LedgerOp.create "u1" 0)) "s1"
        = some { session_id := "s1", user_id := "u1", start_time := 0,
                 end_time := none, duration_seconds := none, summary := none,
                 status := "active" }
    ∧ get_session (applyOp (applyOp { sessions := [], events := [] } "s1"
          (LedgerOp.create "u1" 0)) "s1" (LedgerOp.endS 1)) "s1"
        = some { session_id := "s1", user_id := "u1", start_time := 0,
                 end_time := some 1, duration_seconds := some ⌊(1 : ℚ) - 0⌋,
                 summary := none, status := "completed" }
    ∧ get_session (applyOp (applyOp (applyOp { sessions := [], events := [] } "s1"
          (LedgerOp.create "u1" 0)) "s1" (LedgerOp.endS 1)) "s1"
          (LedgerOp.updSummary "sum")) "s1"
        = some { session_id := "s1", user_id := "u1", start_time := 0,
                 end_time := some 1, duration_seconds := some ⌊(1 : ℚ) - 0⌋,
                 summary := some "sum", status := "summarized" } :=
  statusMonotonicity_lifecycle { sessions := [], events := [] } "s1" "u1" 0 1 "sum"
    (by decide) (by norm_num)

/-- `log_event` only touches the events table. -/
lemma log_event_fst_sessions (st : Store) (b : Bool) (session_id event_type : String)
    (now : ℚ) (data : PDict) (metadata : Option PDict) :
    ((log_event st b session_id event_type now data metadata).1).sessions
      = st.sessions := by
  unfold log_event insertEvent
  cases b <;> rfl

/-- C5: post-processing a session whose reconstructed conversation is
empty does not invoke the summarization provider; it persists the
literal placeholder summary via `update_session_summary`, after which
the session's status is summarized. -/
theorem processor_empty_conversation (st : Store) (session_id : String)
    (s0 : Session) (provider : String → Except String String)
    (logInsertFails : Bool) (now : ℚ)
    (hses : get_session st session_id = some s0)
    (hconv : get_conversation_history st session_id = []) :
    (process_session st session_id provider logInsertFails now).providerCalled = false
    ∧ (process_session st session_id provider logInsertFails now).summaryPersisted
        = some "No conversation data available for this session."
    ∧ ∀ r ∈ (process_session st session_id provider logInsertFails now).store.sessions,
        r.session_id = session_id →
          r.summary = some "No conversation data available for this session."
          ∧ r.status = "summarized" := by
  have hps : process_session st session_id provider logInsertFails now
      = { store := (log_event (update_session_summary st session_id
            "No conversation data available for this session.").1 logInsertFails
            session_id "post_processing_complete" now
            [("summary_generated", PValue.bool true),
             ("summary_length", PValue.int
               (("No conversation data available for this session." : String).length : Int)),
             ("statistics", PValue.stats (get_session_statistics
               (update_session_summary st session_id
                 "No conversation data available for this session.").1 session_id))]
            none).1,
          providerCalled := false,
          summaryPersisted :=
            some "No conversation data available for this session." } := by
    unfold process_session
    rw [hses]
    dsimp only
    rw [hconv]
    rfl
  refine ⟨by rw [hps], by rw [hps], ?_⟩
  intro r hr hrid
  rw [hps] at hr
  dsimp only at hr
  rw [log_event_fst_sessions] at hr
  exact mem_update_sessions _ _ _ r hr hrid

/-- A store holding one completed session with no events (a client that
connected and disconnected without sending any message). -/
def silentStore : Store :=
  { sessions := [{ session_id := "s1", user_id := "u1", start_time := 0,
                   end_time := some 5, duration_seconds := some 5,
                   summary := none, status := "completed" }],
    events := [] }

/-- C5 witness: processing the silent session takes the placeholder path
without calling the provider and summarizes the session. -/
theorem processor_empty_conversation_witness :
    (process_session silentStore "s1" (fun _ => Except.ok "llm text") false 10).providerCalled
      = false
    ∧ (process_session silentStore "s1" (fun _ => Except.ok "llm text") false 10).summaryPersisted
        = some "No conversation data available for this session."
    ∧ ∀ r ∈ (process_session silentStore "s1"
          (fun _ => Except.ok "llm text") false 10).store.sessions,
        r.session_id = "s1" →
          r.summary = some "No conversation data available for this session."
          ∧ r.status = "summarized" :=
  processor_empty_conversation silentStore "s1"
    { session_id := "s1", user_id := "u1", start_time := 0, end_time := some 5,
      duration_seconds := some 5, summary := none, status := "completed" }
    (fun _ => Except.ok "llm text") false 10 (by decide) (by decide)

/-- C6 counterexample: processing the silent session takes the
placeholder path — the provider is never invoked — yet the single
logged `post_processing_complete` event still carries
`summary_generated = True`: the flag is hard-coded, it does not record
which path was taken. -/
theorem processingComplete_flag_counterexample :
    (process_session silentStore "s1" (fun _ => Except.ok "llm text") false 10).providerCalled
      = false
    ∧ ((process_session silentStore "s1"
          (fun _ => Except.ok "llm text") false 10).store.events.filter
        (fun e => e.event_type == "post_processing_complete")).map
        (fun e => dictGet e.data "summary_generated" (PValue.str ""))
      = [PValue.bool true] := by
  exact ⟨by decide, by decide⟩

/-- C6 (amended): on successful completion (the completion-event insert
succeeding), the Processor appends exactly one
`post_processing_complete` event, whose data carries
`summary_generated = True` unconditionally — also when the placeholder
path was taken — together with the persisted summary's length and the
session's statistics. -/
theorem processingComplete_event (st : Store) (session_id : String)
    (s0 : Session) (provider : String → Except String String) (now : ℚ)
    (hses : get_session st session_id = some s0) :
    ∃ summary : String,
      (process_session st session_id provider false now).summaryPersisted = some summary
      ∧ (process_session st session_id provider false now).store.events
          = st.events ++
            [{ session_id := session_id, event_type := "post_processing_complete",
               timestamp := now,
               data := [("summary_generated", PValue.bool true),
                        ("summary_length", PValue.int (summary.length : Int)),
                        ("statistics",
                         PValue.stats (get_session_statistics st session_id))],
               metadata := [] }] := by
  unfold process_session
  rw [hses]
  dsimp only
  by_cases hc : (get_conversation_history st session_id).isEmpty = true
  · rw [if_pos hc]
    exact ⟨_, rfl, rfl⟩
  · rw [if_neg hc]
    exact ⟨_, rfl, rfl⟩

/-- C6 witness: processing the silent session appends exactly one
completion event carrying the hard-coded flag, the placeholder
summary's length and the statistics. -/
theorem processingComplete_event_witness :
    ∃ summary : String,
      (process_session silentStore "s1"
          (fun _ => Except.ok "llm text") false 10).summaryPersisted = some summary
      ∧ (process_session silentStore "s1"
            (fun _ => Except.ok "llm text") false 10).store.events
          = silentStore.events ++
            [{ session_id := "s1", event_type := "post_processing_complete",
               timestamp := 10,
               data := [("summary_generated", PValue.bool true),
                        ("summary_length", PValue.int (summary.length : Int)),
                        ("statistics",
                         PValue.stats (get_session_statistics silentStore "s1"))],
               metadata := [] }] :=
  processingComplete_event silentStore "s1"
    { session_id := "s1", user_id := "u1", start_time := 0, end_time := some 5,
      duration_seconds := some 5, summary := none, status := "completed" }
    (fun _ => Except.ok "llm text") 10 (by decide)

/-- C9: a summarization-provider failure does not propagate:
`generate_summary` catches it and returns the literal error-string
summary containing the error text, which post-processing persists, so
the session ends up summarized rather than un-summarized. -/
theorem summaryProviderFailure_degrades (st : Store) (session_id : String)
    (s0 : Session) (err : String) (logInsertFails : Bool) (now : ℚ)
    (hses : get_session st session_id = some s0)
    (hconv : get_conversation_history st session_id ≠ []) :
    (∀ (conversation : List Message) (session : Session),
        generate_summary conversation session (fun _ => Except.error err)
          = "Error generating summary: " ++ err)
    ∧ (process_session st session_id (fun _ => Except.error err)
        logInsertFails now).summaryPersisted
        = some ("Error generating summary: " ++ err)
    ∧ ∀ r ∈ (process_session st session_id (fun _ => Except.error err)
          logInsertFails now).store.sessions,
        r.session_id = session_id →
          r.summary = some ("Error generating summary: " ++ err)
          ∧ r.status = "summarized" := by
  have hgen : ∀ (conversation : List Message) (session : Session),
      generate_summary conversation session (fun _ => Except.error err)
        = "Error generating summary: " ++ err := fun _ _ => rfl
  have hne : (get_conversation_history st session_id).isEmpty = false := by
    rw [List.isEmpty_eq_false]
    exact hconv
  have hps : process_session st session_id (fun _ => Except.error err) logInsertFails now
      = { store := (log_event (update_session_summary st session_id
            ("Error generating summary: " ++ err)).1 logInsertFails session_id
            "post_processing_complete" now
            [("summary_generated", PValue.bool true),
             ("summary_length", PValue.int
               ((("Error generating summary: " ++ err) : String).length : Int)),
             ("statistics", PValue.stats (get_session_statistics
               (update_session_summary st session_id
                 ("Error generating summary: " ++ err)).1 session_id))]
            none).1,
          providerCalled := true,
          summaryPersisted := some ("Error generating summary: " ++ err) } := by
    unfold process_session
    rw [hses]
    dsimp only
    rw [hne, hgen]
    rfl
  refine ⟨hgen, by rw [hps], ?_⟩
  intro r hr hrid
  rw [hps] at hr
  dsimp only at hr
  rw [log_event_fst_sessions] at hr
  exact mem_update_sessions _ _ _ r hr hrid

/-- A store holding one completed session with one logged user
message. -/
def chattyStore : Store :=
  { sessions := [{ session_id := "s1", user_id := "u1", start_time := 0,
                   end_time := some 5, duration_seconds := some 5,
                   summary := none, status := "completed" }],
    events := [{ session_id := "s1", event_type := "user_message", timestamp := 1,
                 data := [("content", PValue.str "hi")], metadata := [] }] }

/-- C9 witness: a provider failure "boom" on the chatty session yields
the literal error-string summary, which gets persisted with the session
summarized. -/
theorem summaryProviderFailure_degrades_witness :
    (∀ (conversation : List Message) (session : Session),
        generate_summary conversation session (fun _ => Except.error "boom")
          = "Error generating summary: " ++ "boom")
    ∧ (process_session chattyStore "s1" (fun _ => Except.error "boom")
        false 10).summaryPersisted
        = some ("Error generating summary: " ++ "boom")
    ∧ ∀ r ∈ (process_session chattyStore "s1" (fun _ => Except.error "boom")
          false 10).store.sessions,
        r.session_id = "s1" →
          r.summary = some ("Error generating summary: " ++ "boom")
          ∧ r.status = "summarized" :=
  summaryProviderFailure_degrades chattyStore "s1"
    { session_id := "s1", user_id := "u1", start_time := 0, end_time := some 5,
      duration_seconds := some 5, summary := none, status := "completed" }
    "boom" false 10 (by decide) (by decide)
